import Mathlib

/-!
Verification development for the GERF-App target-pursuit control loop
(`code_reference/dart_track.py`, `server/udp_dart_adapter.py`).

Real arithmetic of the Python source (floats) is embedded in `ℚ` wherever the
computation is rational (polynomial focus mapping, hysteresis comparison,
linear angle remapping, coordinate scaling) and in `ℝ` where the source calls
transcendental functions (`math.atan2`, `np.linalg.norm`).  Python `int(x)`
is truncation toward zero, and Python `round(x, 2)` is round-half-to-even at
two decimal digits; both are modelled explicitly below.
-/

namespace GERF

/-- Python `int(x)` applied to a real number: truncation toward zero. -/
def ratTrunc (q : ℚ) : ℤ :=
  if q < 0 then ⌈q⌉ else ⌊q⌋

/-- Python `round`'s integer core: round half to even (banker's rounding). -/
def pyRoundInt (q : ℚ) : ℤ :=
  if q - ⌊q⌋ < 1/2 then ⌊q⌋
  else if 1/2 < q - ⌊q⌋ then ⌊q⌋ + 1
  else if 2 ∣ ⌊q⌋ then ⌊q⌋ else ⌊q⌋ + 1

/-- Python `round(x, 2)`: round half to even at two decimal digits. -/
def pyRound2 (q : ℚ) : ℚ :=
  (pyRoundInt (100 * q) : ℚ) / 100

/-- Polynomial evaluation in the `np.polyval` convention: coefficients are
listed from the highest degree down, evaluated by Horner's scheme. -/
def polyval (coeffs : List ℚ) (x : ℚ) : ℚ :=
  coeffs.foldl (fun acc c => acc * x + c) 0

/-- Embeds `DartTracker.distance_to_steps` / `VisualDartTracker.distance_to_steps`
(`dart_track.py` lines 130-136 and 628-634): if the focus coefficients are not
loaded the sentinel 0 is returned; otherwise `int(np.polyval(coeffs, distance))`
clamped to `[0, 65535]`. -/
def distance_to_steps (coefficients : Option (List ℚ)) (distance : ℚ) : ℤ :=
  match coefficients with
  | none => 0
  | some coeffs =>
    let steps := ratTrunc (polyval coeffs distance)
    max 0 (min steps 65535)

/-- Modelled from the spec: `num_to_range` lives in `utils/misc_funcs.py`,
which is not part of the source tree.  The spec describes the remap as the
linear rescale of `[inMin, inMax]` onto `[outMin, outMax]`. -/
def num_to_range_q (num inMin inMax outMin outMax : ℚ) : ℚ :=
  outMin + (num - inMin) * (outMax - outMin) / (inMax - inMin)

/-- Measurement vector (mm, global frame). -/
abbrev Vec3Q := ℚ × ℚ × ℚ

/-- Operations invoked on the `AdaptiveKalmanFilter` instance by one
control cycle of `DartTracker.track`. -/
inductive KOp where
  | update_F (dt : ℚ)
  | predict
  | update (m : Vec3Q)
  | adapt_Q (m : Vec3Q)
  | predict_latency (d : ℚ)
  deriving DecidableEq, Repr

/-- Embeds the sensor-fusion phase of `DartTracker.track` (`dart_track.py`
lines 154-174) as the sequence of filter operations it performs, given the
measured time step, the `mocap_target.lost` flag, and the measurement: first
`update_F(delta_t)`, then predict-only when lost or predict/update/adapt_Q
when a measurement is available, and finally `predict_latency(0.001)`. -/
def track_kalman_phase (delta_t : ℚ) (lost : Bool) (measurement : Vec3Q) : List KOp :=
  [KOp.update_F delta_t] ++
    (if lost then
      [KOp.predict]
    else
      [KOp.predict, KOp.update measurement, KOp.adapt_Q measurement]) ++
    [KOp.predict_latency (1/1000)]

/-- Externally visible actions of one control cycle (lens focus move, servo
pan/tilt write, telemetry sample pushed to the data queue). -/
inductive Effect where
  | moveFocus (steps : ℤ)
  | servoCmd (pan tilt : ℚ)
  | telemetry (pan tilt encPan encTilt : ℚ)
  deriving DecidableEq, Repr

/-- Number of focus (lens axis B) moves among a cycle's effects. -/
def countFocusMoves (effs : List Effect) : ℕ :=
  effs.countP (fun e => match e with | Effect.moveFocus _ => true | _ => false)

/-- Embeds the focus-hysteresis step of `DartTracker.track` (`dart_track.py`
lines 196-202).  `theia` records whether the Theia lens controller was
constructed (`self.theia` is not `None`).  The source calls
`self.theia.move_axis("B", steps)` without a `None` guard, so when the
controller is absent and the hysteresis condition fires, Python raises
`AttributeError`, which propagates out of `track()`; this is modelled by
`Except.error`.  On success the result carries the new `self.dist` and the
effects of the step. -/
def mocap_focus_phase (theia : Bool) (coefficients : Option (List ℚ))
    (dist distance : ℚ) : Except String (ℚ × List Effect) :=
  if |distance - dist| > 1/10 then
    let steps := distance_to_steps coefficients distance
    let steps := max 0 steps
    if theia then
      Except.ok (distance, [Effect.moveFocus steps])
    else
      Except.error "AttributeError"
  else
    Except.ok (dist, [])

/-- Embeds the focus-hysteresis step of `VisualDartTracker.track`
(`dart_track.py` lines 520-528): same shape with threshold 0.3 m, but the
lens move is guarded by `if self.theia:`, so a missing controller is a
no-op; `self.dist` is still updated. -/
def vision_focus_phase (theia : Bool) (coefficients : Option (List ℚ))
    (dist distance : ℚ) : ℚ × List Effect :=
  if |distance - dist| > 3/10 then
    let steps := distance_to_steps coefficients distance
    let steps := max 0 steps
    ((distance, if theia then [Effect.moveFocus steps] else []))
  else
    (dist, [])

/-- Runs the mocap focus-hysteresis step over a stream of per-cycle
distances, counting issued focus moves.  An escaping exception ends the
tracking loop (as it does in `dart_track`), so no further moves occur. -/
def mocap_focus_run (theia : Bool) (coefficients : Option (List ℚ))
    (dist : ℚ) : List ℚ → ℚ × ℕ
  | [] => (dist, 0)
  | d :: ds =>
    match mocap_focus_phase theia coefficients dist d with
    | Except.error _ => (dist, 0)
    | Except.ok (dist', effs) =>
      let rest := mocap_focus_run theia coefficients dist' ds
      (rest.1, countFocusMoves effs + rest.2)

/-- Runs the vision focus-hysteresis step over a stream of per-cycle
distances, counting issued focus moves. -/
def vision_focus_run (theia : Bool) (coefficients : Option (List ℚ))
    (dist : ℚ) : List ℚ → ℚ × ℕ
  | [] => (dist, 0)
  | d :: ds =>
    let (dist', effs) := vision_focus_phase theia coefficients dist d
    let rest := vision_focus_run theia coefficients dist' ds
    (rest.1, countFocusMoves effs + rest.2)

/-- JSON values as produced by `json.loads` on a UDP payload.  Numeric
strings convertible by Python's `float()` are not modelled; `toFloat` below
treats every string as non-numeric. -/
inductive JVal where
  | num (q : ℚ)
  | str (s : String)
  | arr (xs : List JVal)
  | obj (fields : List (String × JVal))
  | bool (b : Bool)
  | null

/-- A received datagram: `none` stands for bytes that `json.loads` cannot
decode (raising `json.JSONDecodeError`). -/
abbrev Packet := Option JVal

/-- Python `float(v)` on a JSON value: succeeds on numbers and booleans,
raises (`TypeError`/`ValueError`) otherwise. -/
def toFloat : JVal → Option ℚ
  | JVal.num q => some q
  | JVal.bool b => some (if b then 1 else 0)
  | _ => none

/-- Python's `key in json_data` on a decoded JSON object. -/
def hasKey (fields : List (String × JVal)) (k : String) : Bool :=
  (fields.lookup k).isSome

/-- Embeds the packet intake of `VisualDartTracker.track` (`dart_track.py`
lines 488-511): `json.loads` then `udp_message['point_3d']`.  Decode
failures, a missing key, or a non-dict top level all land in one of the
`except` blocks (lines 503-511), which log and `return`; those cases yield
`none`.  No element-count, numeric-type or timestamp check occurs: the raw
`point_3d` value is accepted as-is. -/
def vision_tracker_recv (pkt : Packet) : Option JVal :=
  match pkt with
  | none => none
  | some (JVal.obj fields) => fields.lookup "point_3d"
  | some _ => none

/-- Data extracted from one DART broadcast by the adapter. -/
structure DartData where
  position : ℚ × ℚ × ℚ
  timestamp : ℚ
  source : String
  deriving DecidableEq, Repr

/-- Data forwarded by the adapter to the GERF WebSocket bridge. -/
structure GerfData where
  x : ℚ
  y : ℚ
  z : ℚ
  timestamp : ℚ
  deriving DecidableEq, Repr

/-- Embeds `DartDataAdapter._parse_visual_tracking_data`
(`udp_dart_adapter.py` lines 188-251).  Visual-tracking branch: requires
`point_3d` and `timestamp` keys; the in-place sign flip of elements 0 and 1
raises on a short or non-numeric list (caught, yielding `none`); then the
`len >= 3` check and `float()` conversions of the first three elements and
the timestamp.  GERF-compatible fallback branch: numeric `x`, `y`, `z`; its
`timestamp` defaults via `time.time()`, modelled here as 0.  Every failure
path is caught inside the source function and returns `None`. -/
def parse_visual_tracking_data (pkt : Packet) : Option DartData :=
  match pkt with
  | none => none
  | some (JVal.obj fields) =>
    if hasKey fields "point_3d" && hasKey fields "timestamp" then
      match fields.lookup "point_3d" with
      | some (JVal.arr (x0 :: x1 :: rest)) =>
        match toFloat x0, toFloat x1 with
        | some a, some b =>
          match rest with
          | x2 :: _ =>
            match toFloat x2, (fields.lookup "timestamp").bind toFloat with
            | some c, some t => some ⟨(-a, -b, c), t, "visual_tracking"⟩
            | _, _ => none
          | [] => none
        | _, _ => none
      | _ => none
    else if hasKey fields "x" && hasKey fields "y" && hasKey fields "z" then
      match (fields.lookup "x").bind toFloat, (fields.lookup "y").bind toFloat,
          (fields.lookup "z").bind toFloat with
      | some a, some b, some c =>
        some ⟨(a, b, c), (((fields.lookup "timestamp").bind toFloat).getD 0),
          "gerf_compatible"⟩
      | _, _, _ => none
    else none
  | some _ => none

/-- Embeds `DartDataAdapter._convert_to_gerf_format` (`udp_dart_adapter.py`
lines 253-297) with the constructor's settings `coordinate_scale = 0.1` and
`coordinate_offset = (0, 0, 0)`: each axis is scaled, offset and rounded to
two decimals. -/
def convert_to_gerf_format (d : DartData) : GerfData :=
  ⟨pyRound2 (d.position.1 * (1/10) + 0),
   pyRound2 (d.position.2.1 * (1/10) + 0),
   pyRound2 (d.position.2.2 * (1/10) + 0),
   d.timestamp⟩

/-- One iteration of `DartDataAdapter._adapter_loop` (`udp_dart_adapter.py`
lines 129-155) on a received packet: parse, and forward the converted data
unless the parse discarded the packet. -/
def adapter_pipeline (pkt : Packet) : Option GerfData :=
  (parse_visual_tracking_data pkt).map convert_to_gerf_format

/-- The adapter loop over a stream of packets: discarded packets are skipped
(`continue`) and every successfully parsed packet is forwarded in order. -/
def adapter_run (pkts : List Packet) : List GerfData :=
  pkts.filterMap adapter_pipeline

/-- Per-run mutable state of `VisualDartTracker.track`: the last commanded
focus distance `self.dist` and the cycle counter `self.counter`. -/
structure VisState where
  dist : ℚ
  counter : ℕ
  deriving DecidableEq, Repr

/-- Embeds one call of `VisualDartTracker.track` (`dart_track.py` lines
483-561).  `reproj` stands for `Reprojection.calculate_angles` composed with
`np.rad2deg` (the reprojection module is outside the embedded core; its
output only feeds the telemetry angles).  The steps transliterated: receive
and parse (any failure logs and returns with no effect); `distance = 1.0`
(line 518, the hard-coded constant, regardless of the received point);
focus hysteresis at 0.3 m with the `if self.theia:` guard; angle remap;
the `set_sync_pos` servo write is commented out in the source (line 539) so
no servo effect is emitted; encoder angles are the constants 0 (lines
543-544); a telemetry sample is pushed and the counter incremented. -/
def visual_track_step (theia : Bool) (coefficients : Option (List ℚ))
    (motor_mid_pos : ℚ) (reproj : JVal → ℚ × ℚ) (s : VisState) (pkt : Packet) :
    VisState × List Effect :=
  match vision_tracker_recv pkt with
  | none => (s, [])
  | some point_3d =>
    let (pan_angle_deg, tilt_angle_deg) := reproj point_3d
    let distance : ℚ := 1
    let (dist', focusEffs) := vision_focus_phase theia coefficients s.dist distance
    let pan_angle := pyRound2 (num_to_range_q pan_angle_deg (-45) 45
      (motor_mid_pos - 22.5) (motor_mid_pos + 22.5))
    let tilt_angle := pyRound2 (num_to_range_q tilt_angle_deg 45 (-45)
      (motor_mid_pos - 22.5) (motor_mid_pos + 22.5))
    let encoder_pan_angle : ℚ := 0
    let encoder_tilt_angle : ℚ := 0
    (⟨dist', s.counter + 1⟩,
      focusEffs ++ [Effect.telemetry pan_angle tilt_angle
        (pyRound2 encoder_pan_angle) (pyRound2 encoder_tilt_angle)])

/-- Runs `VisualDartTracker.track` over a stream of packets, collecting all
emitted effects. -/
def visual_track_run (theia : Bool) (coefficients : Option (List ℚ))
    (motor_mid_pos : ℚ) (reproj : JVal → ℚ × ℚ) (s : VisState) :
    List Packet → VisState × List Effect
  | [] => (s, [])
  | pkt :: pkts =>
    let (s', effs) := visual_track_step theia coefficients motor_mid_pos reproj s pkt
    let rest := visual_track_run theia coefficients motor_mid_pos reproj s' pkts
    (rest.1, effs ++ rest.2)

/-- Shutdown steps named in the source (`DartTracker.shutdown`,
`VisualDartTracker.shutdown`). -/
inductive SStep where
  | saveLens
  | closeMocap
  | closeSocket
  | closeDyna
  | disconnectTheia
  deriving DecidableEq, Repr

/-- Outcome of a shutdown sequence: the steps whose bodies ran (to completion
or with their exception caught in a local `try`/`except`), and whether an
exception escaped the whole `shutdown` call, aborting the remaining steps. -/
structure ShutdownOutcome where
  executed : List SStep
  escaped : Bool
  deriving DecidableEq, Repr

/-- Runs one shutdown step.  `present` is the step's enabling condition
(e.g. `if self.theia:`); `raises` says whether the underlying device call
throws; `guarded` says whether the source wraps the call in its own
`try`/`except`.  Once an exception has escaped, no later step runs. -/
def runShutdownStep (acc : ShutdownOutcome) (s : SStep)
    (present raises guarded : Bool) : ShutdownOutcome :=
  if acc.escaped then acc
  else if present then
    if raises && !guarded then ⟨acc.executed, true⟩
    else ⟨acc.executed ++ [s], false⟩
  else acc

/-- Embeds `DartTracker.shutdown` (`dart_track.py` lines 241-283): the lens
position save (lines 249-267) and the mocap close (lines 269-275) are each
wrapped in `try`/`except`; `self.dyna.close_port()` (lines 277-278) and
`self.theia.disconnect()` (lines 280-281) are not. -/
def dartTracker_shutdown (theiaOpen mocapPresent dynaPresent theiaPresent : Bool)
    (saveRaises mocapRaises dynaRaises theiaRaises : Bool) : ShutdownOutcome :=
  let o0 : ShutdownOutcome := ⟨[], false⟩
  let o1 := runShutdownStep o0 SStep.saveLens theiaOpen saveRaises true
  let o2 := runShutdownStep o1 SStep.closeMocap mocapPresent mocapRaises true
  let o3 := runShutdownStep o2 SStep.closeDyna dynaPresent dynaRaises false
  runShutdownStep o3 SStep.disconnectTheia theiaPresent theiaRaises false

/-- Embeds `VisualDartTracker.shutdown` (`dart_track.py` lines 563-626):
the UDP socket close (lines 581-586), the lens position save (lines
588-607), the Dynamixel port close (lines 609-615) and the Theia disconnect
(lines 617-623) are each wrapped in their own `try`/`except`. -/
def visualTracker_shutdown (socketPresent theiaOpen dynaPresent theiaPresent : Bool)
    (socketRaises saveRaises dynaRaises theiaRaises : Bool) : ShutdownOutcome :=
  let o0 : ShutdownOutcome := ⟨[], false⟩
  let o1 := runShutdownStep o0 SStep.closeSocket socketPresent socketRaises true
  let o2 := runShutdownStep o1 SStep.saveLens theiaOpen saveRaises true
  let o3 := runShutdownStep o2 SStep.closeDyna dynaPresent dynaRaises true
  runShutdownStep o3 SStep.disconnectTheia theiaPresent theiaRaises true

/-- Position vectors over `ℝ` for the geometric pipeline. -/
abbrev Vec3R := Fin 3 → ℝ

/-- Python `math.atan2(y, x)` (signed zeros aside). -/
noncomputable def atan2 (y x : ℝ) : ℝ :=
  if 0 < x then Real.arctan (y / x)
  else if x < 0 ∧ 0 ≤ y then Real.arctan (y / x) + Real.pi
  else if x < 0 ∧ y < 0 then Real.arctan (y / x) - Real.pi
  else if x = 0 ∧ 0 < y then Real.pi / 2
  else if x = 0 ∧ y < 0 then -(Real.pi / 2)
  else 0

/-- Python `math.hypot(x, y)`. -/
noncomputable def hypotR (x y : ℝ) : ℝ :=
  Real.sqrt (x ^ 2 + y ^ 2)

/-- Python `math.degrees`. -/
noncomputable def degreesR (x : ℝ) : ℝ :=
  x * 180 / Real.pi

/-- Euclidean norm as computed by `np.linalg.norm` on a 3-vector. -/
noncomputable def norm3 (v : Vec3R) : ℝ :=
  Real.sqrt (v 0 ^ 2 + v 1 ^ 2 + v 2 ^ 2)

/-- Embeds `DartTracker.pan_global_to_local` (`dart_track.py` lines 143-146):
`np.linalg.inv(rotation_matrix) @ (point_global - pan_origin)`. -/
noncomputable def pan_global_to_local (rotation_matrix : Matrix (Fin 3) (Fin 3) ℝ)
    (pan_origin : Vec3R) (point_global : Vec3R) : Vec3R :=
  (rotation_matrix⁻¹).mulVec (point_global - pan_origin)

/-- Embeds `DartTracker.tilt_global_to_local` (`dart_track.py` lines 138-141). -/
noncomputable def tilt_global_to_local (rotation_matrix : Matrix (Fin 3) (Fin 3) ℝ)
    (tilt_origin : Vec3R) (point_global : Vec3R) : Vec3R :=
  (rotation_matrix⁻¹).mulVec (point_global - tilt_origin)

/-- Embeds `DartTracker.calc_rot_comp` (`dart_track.py` lines 148-151):
pan angle `degrees(atan2(y, x))` and tilt angle
`degrees(atan2(z, hypot(x, y)))` of a local-frame point. -/
noncomputable def calc_rot_comp (point_local : Vec3R) : ℝ × ℝ :=
  (degreesR (atan2 (point_local 1) (point_local 0)),
   degreesR (atan2 (point_local 2) (hypotR (point_local 0) (point_local 1))))

/-- Modelled from the spec: real-valued counterpart of `num_to_range_q` for
the geometric pipeline (`num_to_range` of `utils/misc_funcs.py` is not in the
source tree; the spec describes a linear rescale). -/
noncomputable def num_to_range (num inMin inMax outMin outMax : ℝ) : ℝ :=
  outMin + (num - inMin) * (outMax - outMin) / (inMax - inMin)

/-- Python `round`'s integer core over `ℝ` (round half to even). -/
noncomputable def pyRoundIntR (q : ℝ) : ℤ :=
  if q - ⌊q⌋ < 1/2 then ⌊q⌋
  else if 1/2 < q - ⌊q⌋ then ⌊q⌋ + 1
  else if 2 ∣ ⌊q⌋ then ⌊q⌋ else ⌊q⌋ + 1

/-- Python `round(x, 2)` over `ℝ`. -/
noncomputable def pyRound2R (q : ℝ) : ℝ :=
  (pyRoundIntR (100 * q) : ℝ) / 100

/-- Embeds the distance computation of `DartTracker.track` (`dart_track.py`
line 194): `np.linalg.norm(estimated_position - mean_origin) / 1000`. -/
noncomputable def track_distance (mean_origin estimated_position : Vec3R) : ℝ :=
  norm3 (estimated_position - mean_origin) / 1000

/-- Embeds the mocap-path angle remapping of `DartTracker.track`
(`dart_track.py` lines 212-214): both axes use domain `(45, -45)` onto
`(mid - 22.5, mid + 22.5)`, rounded to two decimals. -/
noncomputable def track_mapped_pan (motor_mid_pos pan_angle : ℝ) : ℝ :=
  pyRound2R (num_to_range pan_angle 45 (-45)
    (motor_mid_pos - 22.5) (motor_mid_pos + 22.5))

/-- Spec-side validity of a visual-tracking envelope, following the spec's
words: presence of `point_3d` with at least 3 numeric elements and a
(numeric) `timestamp`.  Used to compare the receivers' actual validation
against the spec. -/
def visualWellFormed (j : JVal) : Bool :=
  match j with
  | JVal.obj fields =>
    (match fields.lookup "point_3d" with
     | some (JVal.arr (x0 :: x1 :: x2 :: _)) =>
       (toFloat x0).isSome && (toFloat x1).isSome && (toFloat x2).isSome
     | _ => false)
    && ((fields.lookup "timestamp").bind toFloat).isSome
  | _ => false

/-- Spec-side validity of a GERF-compatible envelope (the adapter's
documented fallback format): numeric `x`, `y`, `z` fields. -/
def gerfWellFormed (j : JVal) : Bool :=
  match j with
  | JVal.obj fields =>
    ((fields.lookup "x").bind toFloat).isSome &&
    ((fields.lookup "y").bind toFloat).isSome &&
    ((fields.lookup "z").bind toFloat).isSome
  | _ => false

/-! ## Helper lemmas -/

theorem ratTrunc_mono {x y : ℚ} (h : x ≤ y) : ratTrunc x ≤ ratTrunc y := by
  unfold ratTrunc
  split_ifs with hx hy hy
  · exact Int.ceil_le_ceil h
  · calc ⌈x⌉ ≤ 0 := Int.ceil_le.mpr (by exact_mod_cast hx.le)
      _ ≤ ⌊y⌋ := Int.le_floor.mpr (by exact_mod_cast not_lt.mp hy)
  · exact absurd (h.trans_lt hy) hx
  · exact Int.floor_le_floor h

theorem pyRoundInt_sub_le (q : ℚ) : |(pyRoundInt q : ℚ) - q| ≤ 1/2 := by
  have h0 : (⌊q⌋ : ℚ) ≤ q := Int.floor_le q
  have h1 : q < ⌊q⌋ + 1 := Int.lt_floor_add_one q
  unfold pyRoundInt
  rw [abs_le]
  split_ifs with hA hB hC
  · constructor <;> linarith
  · push_cast
    constructor <;> linarith
  · constructor <;> linarith
  · push_cast
    constructor <;> linarith

theorem pyRound2_sub_le (q : ℚ) : |pyRound2 q - q| ≤ 1/200 := by
  have h := pyRoundInt_sub_le (100 * q)
  unfold pyRound2
  have e : (pyRoundInt (100 * q) : ℚ) / 100 - q =
      ((pyRoundInt (100 * q) : ℚ) - 100 * q) / 100 := by ring
  rw [e, abs_div]
  have h100 : |(100 : ℚ)| = 100 := by norm_num
  rw [h100]
  rw [div_le_div_iff₀ (by norm_num) (by norm_num)]
  nlinarith [abs_nonneg ((pyRoundInt (100 * q) : ℚ) - 100 * q)]

theorem pyRound2_zero : pyRound2 0 = 0 := by
  unfold pyRound2 pyRoundInt
  norm_num

theorem countFocusMoves_append (a b : List Effect) :
    countFocusMoves (a ++ b) = countFocusMoves a + countFocusMoves b := by
  unfold countFocusMoves
  exact List.countP_append _ _ _

theorem mocap_focus_run_const_zero (theia : Bool) (coeffs : Option (List ℚ))
    (dist d : ℚ) (h : ¬ |d - dist| > 1/10) (n : ℕ) :
    (mocap_focus_run theia coeffs dist (List.replicate n d)).2 = 0 := by
  induction n with
  | zero => rfl
  | succ k ih =>
    rw [List.replicate_succ]
    unfold mocap_focus_run mocap_focus_phase
    rw [if_neg h]
    simpa [countFocusMoves] using ih

theorem vision_focus_run_const_zero (theia : Bool) (coeffs : Option (List ℚ))
    (dist d : ℚ) (h : ¬ |d - dist| > 3/10) (n : ℕ) :
    (vision_focus_run theia coeffs dist (List.replicate n d)).2 = 0 := by
  induction n with
  | zero => rfl
  | succ k ih =>
    rw [List.replicate_succ]
    unfold vision_focus_run vision_focus_phase
    rw [if_neg h]
    simpa [countFocusMoves] using ih

/-! ## Claim theorems -/

/-- C1: in fusion mode every control cycle first updates the filter
transition model with the measured dt; when the target is lost only
`predict` runs (no `update` at all), and with a measurement available the
order is predict, update, adapt_Q; in both cases the cycle ends by
re-predicting forward by the fixed 0.001 s latency compensation without
consuming a new measurement. -/
theorem track_kalman_phase_order (delta_t : ℚ) (m : Vec3Q) :
    track_kalman_phase delta_t true m =
      [KOp.update_F delta_t, KOp.predict, KOp.predict_latency (1/1000)] ∧
    track_kalman_phase delta_t false m =
      [KOp.update_F delta_t, KOp.predict, KOp.update m, KOp.adapt_Q m,
        KOp.predict_latency (1/1000)] ∧
    ((track_kalman_phase delta_t true m).countP
      (fun op => match op with | KOp.update _ => true | _ => false)) = 0 := by
  exact ⟨rfl, rfl, rfl⟩

/-- C2: a focus move is issued during a cycle only when the distance differs
from the last commanded distance by more than the hysteresis threshold
(0.1 m mocap, 0.3 m vision); whenever a move is issued the last commanded
distance becomes the new distance; hence a stream of repeated identical
distances issues at most one move. -/
theorem focus_hysteresis (theia : Bool) (coeffs : Option (List ℚ))
    (dist d : ℚ) (n : ℕ) :
    (¬ |d - dist| > 1/10 → mocap_focus_phase theia coeffs dist d = Except.ok (dist, [])) ∧
    (∀ d' effs, mocap_focus_phase theia coeffs dist d = Except.ok (d', effs) →
      effs ≠ [] → |d - dist| > 1/10 ∧ d' = d) ∧
    (¬ |d - dist| > 3/10 → vision_focus_phase theia coeffs dist d = (dist, [])) ∧
    (∀ d' effs, vision_focus_phase theia coeffs dist d = (d', effs) →
      effs ≠ [] → |d - dist| > 3/10 ∧ d' = d) ∧
    (mocap_focus_run theia coeffs dist (List.replicate n d)).2 ≤ 1 ∧
    (vision_focus_run theia coeffs dist (List.replicate n d)).2 ≤ 1 := by
  refine ⟨?_, ?_, ?_, ?_, ?_, ?_⟩
  · intro h
    unfold mocap_focus_phase
    rw [if_neg h]
  · intro d' effs he hne
    unfold mocap_focus_phase at he
    by_cases h : |d - dist| > 1/10
    · rw [if_pos h] at he
      cases theia with
      | true =>
        simp only [if_true] at he
        injection he with h2
        injection h2 with hd hl
        exact ⟨h, hd.symm⟩
      | false => simp at he
    · rw [if_neg h] at he
      injection he with h2
      injection h2 with hd hl
      exact absurd hl.symm hne
  · intro h
    unfold vision_focus_phase
    rw [if_neg h]
  · intro d' effs he hne
    unfold vision_focus_phase at he
    by_cases h : |d - dist| > 3/10
    · rw [if_pos h] at he
      injection he with hd hl
      exact ⟨h, hd.symm⟩
    · rw [if_neg h] at he
      injection he with hd hl
      exact absurd hl.symm hne
  · cases n with
    | zero => simp [mocap_focus_run]
    | succ k =>
      rw [List.replicate_succ]
      unfold mocap_focus_run mocap_focus_phase
      by_cases h : |d - dist| > 1/10
      · rw [if_pos h]
        cases theia with
        | true =>
          simp only [if_true]
          have hz : ¬ |d - d| > 1/10 := by
            rw [sub_self, abs_zero]; norm_num
          have := mocap_focus_run_const_zero true coeffs d d hz k
          simp only [this, countFocusMoves, List.countP_cons, List.countP_nil]
          norm_num
        | false => simp
      · rw [if_neg h]
        have := mocap_focus_run_const_zero theia coeffs dist d h k
        simp only [this, countFocusMoves, List.countP_nil]
        norm_num
  · cases n with
    | zero => simp [vision_focus_run]
    | succ k =>
      rw [List.replicate_succ]
      unfold vision_focus_run vision_focus_phase
      by_cases h : |d - dist| > 3/10
      · rw [if_pos h]
        have hz : ¬ |d - d| > 3/10 := by
          rw [sub_self, abs_zero]; norm_num
        have := vision_focus_run_const_zero theia coeffs d d hz k
        cases theia with
        | true =>
          simp only [this, countFocusMoves, List.countP_cons, List.countP_nil]
          norm_num
        | false =>
          simp only [this, countFocusMoves, List.countP_nil]
          norm_num
      · rw [if_neg h]
        have := vision_focus_run_const_zero theia coeffs dist d h k
        simp only [this, countFocusMoves, List.countP_nil]
        norm_num

/-- Witness for the focus-hysteresis theorem at concrete inputs: a 0.05 m
change does not trigger a mocap-mode move, and five identical 1.0 m cycles
trigger at most one vision-mode move. -/
theorem focus_hysteresis_witness :
    mocap_focus_phase true none 0 (1/20) = Except.ok (0, []) ∧
    (vision_focus_run true (some [2, 3]) 0 (List.replicate 5 1)).2 ≤ 1 := by
  constructor
  · refine (focus_hysteresis true none 0 (1/20) 0).1 ?_
    rw [sub_zero, abs_of_nonneg (by norm_num : (0:ℚ) ≤ 1/20)]
    norm_num
  · exact (focus_hysteresis true (some [2, 3]) 0 1 5).2.2.2.2.2

/-- C3 counterexample: `distance_to_steps` is not monotonically
non-decreasing for every loaded coefficient vector — with the decreasing
calibration polynomial `-x + 10` it maps distance 0 to 10 steps and
distance 1 to 9 steps. -/
theorem distance_to_steps_not_monotone :
    distance_to_steps (some [-1, 10]) 0 = 10 ∧
    distance_to_steps (some [-1, 10]) 1 = 9 ∧
    ¬ (∀ (coeffs : List ℚ) (d₁ d₂ : ℚ), 0 ≤ d₁ → d₁ ≤ d₂ →
        distance_to_steps (some coeffs) d₁ ≤ distance_to_steps (some coeffs) d₂) := by
  have h0 : distance_to_steps (some [-1, 10]) 0 = 10 := by
    unfold distance_to_steps polyval ratTrunc
    norm_num
  have h1 : distance_to_steps (some [-1, 10]) 1 = 9 := by
    unfold distance_to_steps polyval ratTrunc
    norm_num
  refine ⟨h0, h1, fun hmono => ?_⟩
  have := hmono [-1, 10] 0 1 le_rfl zero_le_one
  rw [h0, h1] at this
  norm_num at this

/-- C3 amended: for every coefficient vector (or absent coefficients) and
every distance the result lies in `[0, 65535]`; and `distance_to_steps` is
monotone in the distance whenever the calibration polynomial itself is
non-decreasing between the two distances (as a proper lens calibration is on
its calibrated range). -/
theorem distance_to_steps_range_and_monotone (coefficients : Option (List ℚ))
    (d d₁ d₂ : ℚ) :
    (0 ≤ distance_to_steps coefficients d ∧
      distance_to_steps coefficients d ≤ 65535) ∧
    (∀ c, coefficients = some c → polyval c d₁ ≤ polyval c d₂ →
      distance_to_steps coefficients d₁ ≤ distance_to_steps coefficients d₂) := by
  constructor
  · cases coefficients with
    | none => exact ⟨le_rfl, by norm_num [distance_to_steps]⟩
    | some c =>
      unfold distance_to_steps
      refine ⟨le_max_left 0 _, max_le (by norm_num) (min_le_right _ _)⟩
  · intro c hc hp
    subst hc
    unfold distance_to_steps
    exact max_le_max le_rfl (min_le_min (ratTrunc_mono hp) le_rfl)

/-- Witness for the amended C3 theorem at the identity calibration
polynomial and distances 2, 1 and 3. -/
theorem distance_to_steps_range_and_monotone_witness :
    (0 ≤ distance_to_steps (some [1, 0]) 2 ∧
      distance_to_steps (some [1, 0]) 2 ≤ 65535) ∧
    distance_to_steps (some [1, 0]) 1 ≤ distance_to_steps (some [1, 0]) 3 := by
  constructor
  · exact (distance_to_steps_range_and_monotone (some [1, 0]) 2 1 3).1
  · refine (distance_to_steps_range_and_monotone (some [1, 0]) 2 1 3).2 [1, 0] rfl ?_
    unfold polyval
    norm_num

/-- C4: the geometric-to-motor remap is affine and order-preserving per the
per-axis convention: the mocap pan/tilt (and vision tilt) convention maps
the endpoints `(45, -45)` to `(mid - 22.5, mid + 22.5)` (the configured
inverse order) and is antitone; the vision pan convention maps them to
`(mid + 22.5, mid - 22.5)` and is monotone; the closed forms `mid - z/2` and
`mid + z/2` exhibit linearity; the 2-decimal rounding applied afterwards
moves any value by at most 1/200. -/
theorem angle_remap_linear (mid x y : ℚ) (hxy : x ≤ y) :
    num_to_range_q 45 45 (-45) (mid - 22.5) (mid + 22.5) = mid - 22.5 ∧
    num_to_range_q (-45) 45 (-45) (mid - 22.5) (mid + 22.5) = mid + 22.5 ∧
    num_to_range_q 45 (-45) 45 (mid - 22.5) (mid + 22.5) = mid + 22.5 ∧
    num_to_range_q (-45) (-45) 45 (mid - 22.5) (mid + 22.5) = mid - 22.5 ∧
    (∀ z, num_to_range_q z 45 (-45) (mid - 22.5) (mid + 22.5) = mid - z/2) ∧
    (∀ z, num_to_range_q z (-45) 45 (mid - 22.5) (mid + 22.5) = mid + z/2) ∧
    num_to_range_q y 45 (-45) (mid - 22.5) (mid + 22.5) ≤
      num_to_range_q x 45 (-45) (mid - 22.5) (mid + 22.5) ∧
    num_to_range_q x (-45) 45 (mid - 22.5) (mid + 22.5) ≤
      num_to_range_q y (-45) 45 (mid - 22.5) (mid + 22.5) ∧
    (∀ z : ℚ, |pyRound2 z - z| ≤ 1/200) := by
  have hdec : ∀ z, num_to_range_q z 45 (-45) (mid - 22.5) (mid + 22.5) = mid - z/2 := by
    intro z
    unfold num_to_range_q
    ring
  have hinc : ∀ z, num_to_range_q z (-45) 45 (mid - 22.5) (mid + 22.5) = mid + z/2 := by
    intro z
    unfold num_to_range_q
    ring
  refine ⟨?_, ?_, ?_, ?_, hdec, hinc, ?_, ?_, fun z => pyRound2_sub_le z⟩
  · rw [hdec]; ring
  · rw [hdec]; ring
  · rw [hinc]; ring
  · rw [hinc]; ring
  · rw [hdec, hdec]; linarith
  · rw [hinc, hinc]; linarith

/-- Witness for the angle-remap theorem at `mid = 45` and the ordered pair
`(0, 1)`: the mocap-path endpoint values and the antitone ordering. -/
theorem angle_remap_linear_witness :
    num_to_range_q 45 45 (-45) (45 - 22.5) (45 + 22.5) = 45 - 22.5 ∧
    num_to_range_q 1 45 (-45) (45 - 22.5) (45 + 22.5) ≤
      num_to_range_q 0 45 (-45) (45 - 22.5) (45 + 22.5) := by
  refine ⟨(angle_remap_linear 45 0 1 ?_).1, (angle_remap_linear 45 0 1 ?_).2.2.2.2.2.2.1⟩ <;>
    norm_num

/-- C6 (code bug evidence): with the Theia controller absent in mocap mode,
a distance change beyond the hysteresis threshold makes the focus step raise
`AttributeError` instead of degrading to a no-op; and with the controller
present but the coefficients missing, the sentinel 0 is not treated as a
no-op — a lens move to step 0 is still commanded.  Only the vision path
degrades to a no-op. -/
theorem mocap_focus_theia_absent_raises :
    mocap_focus_phase false none 0 1 = Except.error "AttributeError" ∧
    mocap_focus_phase true none 0 1 = Except.ok (1, [Effect.moveFocus 0]) ∧
    vision_focus_phase false none 0 1 = (1, []) := by
  have h : |(1 : ℚ) - 0| > 1/10 := by
    rw [sub_zero, abs_of_nonneg (by norm_num : (0:ℚ) ≤ 1)]
    norm_num
  have h3 : |(1 : ℚ) - 0| > 3/10 := by
    rw [sub_zero, abs_of_nonneg (by norm_num : (0:ℚ) ≤ 1)]
    norm_num
  refine ⟨?_, ?_, ?_⟩
  · unfold mocap_focus_phase
    rw [if_pos h]
    rfl
  · unfold mocap_focus_phase
    rw [if_pos h]
    rfl
  · unfold vision_focus_phase
    rw [if_pos h3]
    rfl

/-- C8 counterexample: in `DartTracker.shutdown`, an exception raised while
closing the Dynamixel serial port escapes (that step has no `try`/`except`),
so the Theia disconnect step never runs — the steps are not independently
fault-tolerant. -/
theorem dartTracker_shutdown_not_fault_tolerant :
    dartTracker_shutdown true true true true false false true false =
      ⟨[SStep.saveLens, SStep.closeMocap], true⟩ ∧
    (dartTracker_shutdown true true true true false false true
        false).executed.contains SStep.disconnectTheia = false := by
  exact ⟨rfl, rfl⟩

/-- C8 amended: the lens-save and mocap-close steps of
`DartTracker.shutdown` are independently fault-tolerant (with the later
unguarded steps not raising, every step still runs and nothing escapes), and
in `VisualDartTracker.shutdown` every step is independently fault-tolerant:
whatever raises, all four steps run and no exception escapes. -/
theorem shutdown_fault_tolerance (saveR mocapR soR svR dyR thR : Bool) :
    dartTracker_shutdown true true true true saveR mocapR false false =
      ⟨[SStep.saveLens, SStep.closeMocap, SStep.closeDyna,
        SStep.disconnectTheia], false⟩ ∧
    visualTracker_shutdown true true true true soR svR dyR thR =
      ⟨[SStep.closeSocket, SStep.saveLens, SStep.closeDyna,
        SStep.disconnectTheia], false⟩ := by
  cases saveR <;> cases mocapR <;> cases soR <;> cases svR <;> cases dyR <;>
    cases thR <;> exact ⟨rfl, rfl⟩

/-- C10: for a well-formed visual-tracking packet the adapter forwards the
coordinates with x and y sign-flipped and all three axes scaled by 0.1 with
zero offset, rounded to two decimals, and the timestamp passed through. -/
theorem adapter_forwards_scaled_flipped (p0 p1 p2 t : ℚ) :
    adapter_pipeline (some (JVal.obj
      [("timestamp", JVal.num t),
       ("point_3d", JVal.arr [JVal.num p0, JVal.num p1, JVal.num p2]),
       ("frame_id", JVal.num 0)])) =
      some ⟨pyRound2 (-(1/10) * p0), pyRound2 (-(1/10) * p1),
        pyRound2 ((1/10) * p2), t⟩ := by
  have hparse : parse_visual_tracking_data (some (JVal.obj
      [("timestamp", JVal.num t),
       ("point_3d", JVal.arr [JVal.num p0, JVal.num p1, JVal.num p2]),
       ("frame_id", JVal.num 0)])) =
      some ⟨(-p0, -p1, p2), t, "visual_tracking"⟩ := rfl
  rw [adapter_pipeline, hparse, Option.map_some']
  unfold convert_to_gerf_format
  have e0 : -p0 * (1/10) + 0 = -(1/10) * p0 := by ring
  have e1 : -p1 * (1/10) + 0 = -(1/10) * p1 := by ring
  have e2 : p2 * (1/10) + 0 = (1/10) * p2 := by ring
  simp only
  rw [e0, e1, e2]

theorem adapter_validates (pkt : Packet) (d : DartData)
    (hd : parse_visual_tracking_data pkt = some d) :
    ∃ j, pkt = some j ∧ (visualWellFormed j || gerfWellFormed j) = true := by
  cases pkt with
  | none => exact absurd hd (by simp [parse_visual_tracking_data])
  | some j =>
    refine ⟨j, rfl, ?_⟩
    cases j with
    | obj fields =>
      simp only [parse_visual_tracking_data] at hd
      repeat' split at hd
      all_goals simp_all [visualWellFormed, gerfWellFormed]
    | num q => simp [parse_visual_tracking_data] at hd
    | str s => simp [parse_visual_tracking_data] at hd
    | arr xs => simp [parse_visual_tracking_data] at hd
    | bool b => simp [parse_visual_tracking_data] at hd
    | null => simp [parse_visual_tracking_data] at hd

theorem visual_track_step_malformed (theia : Bool) (coeffs : Option (List ℚ))
    (mid : ℚ) (reproj : JVal → ℚ × ℚ) (s : VisState) (pkt : Packet)
    (h : vision_tracker_recv pkt = none) :
    visual_track_step theia coeffs mid reproj s pkt = (s, []) := by
  unfold visual_track_step
  rw [h]

/-- C7 (amended): the adapter accepts a packet only when it is a well-formed
visual-tracking envelope (`point_3d` with at least three numeric elements
and a numeric `timestamp`) or a well-formed GERF `x`/`y`/`z` envelope; the
vision-mode tracker validates only decodability and presence of the
`point_3d` key; in both receivers a discarded packet produces no effect and
does not stop the loop, and the packets after it are processed exactly as
they would have been without it. -/
theorem receiver_packet_validation (pkt : Packet) :
    (∀ d, parse_visual_tracking_data pkt = some d →
      ∃ j, pkt = some j ∧ (visualWellFormed j || gerfWellFormed j) = true) ∧
    (∀ v, vision_tracker_recv pkt = some v →
      ∃ fields, pkt = some (JVal.obj fields) ∧ fields.lookup "point_3d" = some v) ∧
    (∀ rest, adapter_pipeline pkt = none →
      adapter_run (pkt :: rest) = adapter_run rest) ∧
    (∀ theia coeffs mid reproj s, vision_tracker_recv pkt = none →
      visual_track_step theia coeffs mid reproj s pkt = (s, [])) ∧
    (∀ theia coeffs mid reproj s pkts, vision_tracker_recv pkt = none →
      visual_track_run theia coeffs mid reproj s (pkt :: pkts) =
        visual_track_run theia coeffs mid reproj s pkts) := by
  refine ⟨fun d hd => adapter_validates pkt d hd, ?_, ?_, ?_, ?_⟩
  · intro v hv
    cases pkt with
    | none => simp [vision_tracker_recv] at hv
    | some j =>
      cases j with
      | obj fields => exact ⟨fields, rfl, hv⟩
      | num q => simp [vision_tracker_recv] at hv
      | str s => simp [vision_tracker_recv] at hv
      | arr xs => simp [vision_tracker_recv] at hv
      | bool b => simp [vision_tracker_recv] at hv
      | null => simp [vision_tracker_recv] at hv
  · intro rest h
    unfold adapter_run
    rw [List.filterMap_cons_none h]
  · exact fun theia coeffs mid reproj s h =>
      visual_track_step_malformed theia coeffs mid reproj s pkt h
  · intro theia coeffs mid reproj s pkts h
    show (let p := visual_track_step theia coeffs mid reproj s pkt
          let rest := visual_track_run theia coeffs mid reproj p.1 pkts
          (rest.1, p.2 ++ rest.2)) = visual_track_run theia coeffs mid reproj s pkts
    rw [visual_track_step_malformed theia coeffs mid reproj s pkt h]
    simp

/-- C7 counterexample: the vision-mode receiver accepts a packet whose
`point_3d` has only two elements and which carries no `timestamp` — a packet
the claimed validation would discard — and goes on to process it (emitting a
telemetry sample). -/
theorem vision_tracker_accepts_invalid :
    vision_tracker_recv (some (JVal.obj
      [("point_3d", JVal.arr [JVal.num 1, JVal.num 2])])) =
      some (JVal.arr [JVal.num 1, JVal.num 2]) ∧
    visualWellFormed (JVal.obj [("point_3d", JVal.arr [JVal.num 1, JVal.num 2])]) =
      false ∧
    (visual_track_step true none 45 (fun _ => (0, 0)) ⟨0, 0⟩
      (some (JVal.obj [("point_3d", JVal.arr [JVal.num 1, JVal.num 2])]))).2 ≠ [] := by
  refine ⟨rfl, rfl, ?_⟩
  unfold visual_track_step
  rw [show vision_tracker_recv (some (JVal.obj
      [("point_3d", JVal.arr [JVal.num 1, JVal.num 2])])) =
      some (JVal.arr [JVal.num 1, JVal.num 2]) from rfl]
  simp

/-- Witness for the receiver-validation theorem: an undecodable-shape packet
(a bare number) is skipped by the adapter while the following valid packet
is still forwarded, and the vision-mode tracker treats it as a no-op. -/
theorem receiver_packet_validation_witness :
    adapter_run [some (JVal.num 5),
      some (JVal.obj [("timestamp", JVal.num 0),
        ("point_3d", JVal.arr [JVal.num 10, JVal.num 20, JVal.num 30])])] =
      adapter_run [some (JVal.obj [("timestamp", JVal.num 0),
        ("point_3d", JVal.arr [JVal.num 10, JVal.num 20, JVal.num 30])])] ∧
    visual_track_step true none 45 (fun _ => (0, 0)) ⟨0, 0⟩ (some (JVal.num 5)) =
      (⟨0, 0⟩, []) := by
  constructor
  · exact (receiver_packet_validation (some (JVal.num 5))).2.2.1
      [some (JVal.obj [("timestamp", JVal.num 0),
        ("point_3d", JVal.arr [JVal.num 10, JVal.num 20, JVal.num 30])])] rfl
  · exact (receiver_packet_validation (some (JVal.num 5))).2.2.2.1
      true none 45 (fun _ => (0, 0)) ⟨0, 0⟩ rfl

theorem visual_track_step_some (theia : Bool) (coeffs : Option (List ℚ))
    (mid : ℚ) (reproj : JVal → ℚ × ℚ) (s : VisState) (pkt : Packet) (v : JVal)
    (h : vision_tracker_recv pkt = some v) :
    visual_track_step theia coeffs mid reproj s pkt =
      (⟨(vision_focus_phase theia coeffs s.dist 1).1, s.counter + 1⟩,
        (vision_focus_phase theia coeffs s.dist 1).2 ++
          [Effect.telemetry
            (pyRound2 (num_to_range_q (reproj v).1 (-45) 45 (mid - 22.5) (mid + 22.5)))
            (pyRound2 (num_to_range_q (reproj v).2 45 (-45) (mid - 22.5) (mid + 22.5)))
            (pyRound2 0) (pyRound2 0)]) := by
  unfold visual_track_step
  rw [h]

theorem visual_track_run_cons (theia : Bool) (coeffs : Option (List ℚ))
    (mid : ℚ) (reproj : JVal → ℚ × ℚ) (s : VisState) (pkt : Packet)
    (pkts : List Packet) :
    visual_track_run theia coeffs mid reproj s (pkt :: pkts) =
      ((visual_track_run theia coeffs mid reproj
          (visual_track_step theia coeffs mid reproj s pkt).1 pkts).1,
        (visual_track_step theia coeffs mid reproj s pkt).2 ++
          (visual_track_run theia coeffs mid reproj
            (visual_track_step theia coeffs mid reproj s pkt).1 pkts).2) := rfl

/-- Predicate singling out servo (pan/tilt) write effects. -/
def isServoCmd (e : Effect) : Bool :=
  match e with
  | Effect.servoCmd _ _ => true
  | _ => false

/-- Predicate singling out telemetry samples whose encoder fields are not
both 0. -/
def isNonzeroEncTelemetry (e : Effect) : Bool :=
  match e with
  | Effect.telemetry _ _ ep et => !((ep == 0) && (et == 0))
  | _ => false

theorem visual_track_step_counts (theia : Bool) (coeffs : Option (List ℚ))
    (mid : ℚ) (reproj : JVal → ℚ × ℚ) (s : VisState) (pkt : Packet) :
    (visual_track_step theia coeffs mid reproj s pkt).2.countP isServoCmd = 0 ∧
    (visual_track_step theia coeffs mid reproj s pkt).2.countP
      isNonzeroEncTelemetry = 0 := by
  rcases h : vision_tracker_recv pkt with _ | v
  · rw [visual_track_step_malformed theia coeffs mid reproj s pkt h]
    exact ⟨rfl, rfl⟩
  · rw [visual_track_step_some theia coeffs mid reproj s pkt v h]
    constructor
    · rw [List.countP_append]
      have h1 : (vision_focus_phase theia coeffs s.dist 1).2.countP isServoCmd = 0 := by
        unfold vision_focus_phase
        split
        · cases theia <;> simp [isServoCmd]
        · simp
      rw [h1]
      simp [isServoCmd]
    · rw [List.countP_append]
      have h1 : (vision_focus_phase theia coeffs s.dist 1).2.countP
          isNonzeroEncTelemetry = 0 := by
        unfold vision_focus_phase
        split
        · cases theia <;> simp [isNonzeroEncTelemetry]
        · simp
      rw [h1]
      simp [isNonzeroEncTelemetry, pyRound2_zero]

theorem visual_track_run_counts (theia : Bool) (coeffs : Option (List ℚ))
    (mid : ℚ) (reproj : JVal → ℚ × ℚ) (pkts : List Packet) : ∀ s : VisState,
    (visual_track_run theia coeffs mid reproj s pkts).2.countP isServoCmd = 0 ∧
    (visual_track_run theia coeffs mid reproj s pkts).2.countP
      isNonzeroEncTelemetry = 0 := by
  induction pkts with
  | nil => exact fun s => ⟨rfl, rfl⟩
  | cons pkt rest ih =>
    intro s
    rw [visual_track_run_cons]
    simp only [List.countP_append]
    have hstep := visual_track_step_counts theia coeffs mid reproj s pkt
    have hrest := ih (visual_track_step theia coeffs mid reproj s pkt).1
    omega

theorem visual_track_run_moves_le (theia : Bool) (coeffs : Option (List ℚ))
    (mid : ℚ) (reproj : JVal → ℚ × ℚ) (pkts : List Packet) : ∀ s : VisState,
    countFocusMoves (visual_track_run theia coeffs mid reproj s pkts).2 ≤
      (if |1 - s.dist| > 3/10 then 1 else 0) := by
  induction pkts with
  | nil =>
    intro s
    simp only [visual_track_run, countFocusMoves, List.countP_nil]
    split <;> norm_num
  | cons pkt rest ih =>
    intro s
    rw [visual_track_run_cons, countFocusMoves_append]
    rcases h : vision_tracker_recv pkt with _ | v
    · rw [visual_track_step_malformed theia coeffs mid reproj s pkt h]
      simpa [countFocusMoves] using ih s
    · have hsome := visual_track_step_some theia coeffs mid reproj s pkt v h
      have hstep1 : (visual_track_step theia coeffs mid reproj s pkt).1 =
          ⟨(vision_focus_phase theia coeffs s.dist 1).1, s.counter + 1⟩ := by
        rw [hsome]
      have hstep2 : (visual_track_step theia coeffs mid reproj s pkt).2 =
          (vision_focus_phase theia coeffs s.dist 1).2 ++
            [Effect.telemetry
              (pyRound2 (num_to_range_q (reproj v).1 (-45) 45 (mid - 22.5) (mid + 22.5)))
              (pyRound2 (num_to_range_q (reproj v).2 45 (-45) (mid - 22.5) (mid + 22.5)))
              (pyRound2 0) (pyRound2 0)] := by
        rw [hsome]
      rw [hstep1, hstep2, countFocusMoves_append]
      have htel : countFocusMoves [Effect.telemetry
          (pyRound2 (num_to_range_q (reproj v).1 (-45) 45 (mid - 22.5) (mid + 22.5)))
          (pyRound2 (num_to_range_q (reproj v).2 45 (-45) (mid - 22.5) (mid + 22.5)))
          (pyRound2 0) (pyRound2 0)] = 0 := by
        simp [countFocusMoves]
      by_cases hc : |1 - s.dist| > 3/10
      · have hone : ¬ |1 - (1:ℚ)| > 3/10 := by
          rw [sub_self, abs_zero]; norm_num
        have hphase1 : (vision_focus_phase theia coeffs s.dist 1).1 = 1 := by
          unfold vision_focus_phase
          rw [if_pos hc]
        have hphase2 : (vision_focus_phase theia coeffs s.dist 1).2 =
            (if theia then
              [Effect.moveFocus (max 0 (distance_to_steps coeffs 1))] else []) := by
          unfold vision_focus_phase
          rw [if_pos hc]
        rw [hphase1, hphase2, if_pos hc]
        have hrest := ih ⟨1, s.counter + 1⟩
        rw [if_neg hone] at hrest
        have hfocus : countFocusMoves (if theia then
            [Effect.moveFocus (max 0 (distance_to_steps coeffs 1))] else []) ≤ 1 := by
          cases theia <;> simp [countFocusMoves]
        omega
      · have hphase1 : (vision_focus_phase theia coeffs s.dist 1).1 = s.dist := by
          unfold vision_focus_phase
          rw [if_neg hc]
        have hphase2 : (vision_focus_phase theia coeffs s.dist 1).2 = [] := by
          unfold vision_focus_phase
          rw [if_neg hc]
        rw [hphase1, hphase2, if_neg hc]
        have hrest := ih ⟨s.dist, s.counter + 1⟩
        rw [if_neg hc] at hrest
        have hnil : countFocusMoves ([] : List Effect) = 0 := rfl
        omega

/-- C9: over any run of `VisualDartTracker.track` from its initial state, no
pan/tilt servo command is ever issued (the synchronized write is disabled),
every telemetry sample carries encoder angles 0, and — because the distance
fed to the focus hysteresis is the constant 1.0 m — at most one focus move
is ever issued. -/
theorem visual_mode_frame_effects (theia : Bool) (coeffs : Option (List ℚ))
    (mid : ℚ) (reproj : JVal → ℚ × ℚ) (pkts : List Packet) :
    (visual_track_run theia coeffs mid reproj ⟨0, 0⟩ pkts).2.countP isServoCmd = 0 ∧
    (visual_track_run theia coeffs mid reproj ⟨0, 0⟩ pkts).2.countP
      isNonzeroEncTelemetry = 0 ∧
    countFocusMoves (visual_track_run theia coeffs mid reproj ⟨0, 0⟩ pkts).2 ≤ 1 := by
  obtain ⟨h1, h2⟩ := visual_track_run_counts theia coeffs mid reproj pkts ⟨0, 0⟩
  refine ⟨h1, h2, ?_⟩
  have h3 := visual_track_run_moves_le theia coeffs mid reproj pkts ⟨0, 0⟩
  calc countFocusMoves (visual_track_run theia coeffs mid reproj ⟨0, 0⟩ pkts).2
      ≤ (if |1 - (⟨0, 0⟩ : VisState).dist| > 3/10 then 1 else 0) := h3
    _ ≤ 1 := by split <;> norm_num

theorem atan2_zero_pos {x : ℝ} (hx : 0 < x) : atan2 0 x = 0 := by
  unfold atan2
  rw [if_pos hx, zero_div, Real.arctan_zero]

theorem sqrt_million : Real.sqrt 1000000 = 1000 := by
  have h : (1000000 : ℝ) = 1000 ^ 2 := by norm_num
  rw [h, Real.sqrt_sq (by norm_num : (0:ℝ) ≤ 1000)]

theorem pyRound2R_45 : pyRound2R 45 = 45 := by
  have hfl : ⌊(100 * 45 : ℝ)⌋ = 4500 := by
    norm_num
  unfold pyRound2R pyRoundIntR
  rw [hfl]
  norm_num

/-- C5: with `pan_origin = tilt_origin = (0,0,0)`, `rotation_matrix = I` and
`motor_mid = 45`, a target at global `(1000, 0, 0)` mm gives focus distance
1.0 m (fed to the lens polynomial), azimuth 0°, elevation 0°, and a mapped
pan angle of exactly 45° (the mid position). -/
theorem end_to_end_identity_calibration :
    track_distance 0 ![1000, 0, 0] = 1 ∧
    (calc_rot_comp (pan_global_to_local 1 0 ![1000, 0, 0])).1 = 0 ∧
    (calc_rot_comp (tilt_global_to_local 1 0 ![1000, 0, 0])).2 = 0 ∧
    track_mapped_pan 45 ((calc_rot_comp (pan_global_to_local 1 0 ![1000, 0, 0])).1) =
      45 := by
  have hpan : pan_global_to_local 1 0 ![1000, 0, 0] = ![1000, 0, 0] := by
    unfold pan_global_to_local
    rw [inv_one, sub_zero, Matrix.one_mulVec]
  have htilt : tilt_global_to_local 1 0 ![1000, 0, 0] = ![1000, 0, 0] := by
    unfold tilt_global_to_local
    rw [inv_one, sub_zero, Matrix.one_mulVec]
  have hv0 : (![1000, 0, 0] : Vec3R) 0 = 1000 := rfl
  have hv1 : (![1000, 0, 0] : Vec3R) 1 = 0 := rfl
  have hv2 : (![1000, 0, 0] : Vec3R) 2 = 0 := rfl
  have hhyp : hypotR 1000 0 = 1000 := by
    unfold hypotR
    rw [show (1000:ℝ) ^ 2 + 0 ^ 2 = 1000000 by norm_num, sqrt_million]
  have hazi : (calc_rot_comp (![1000, 0, 0] : Vec3R)).1 = 0 := by
    unfold calc_rot_comp degreesR
    rw [hv0, hv1, atan2_zero_pos (by norm_num : (0:ℝ) < 1000)]
    simp
  have hele : (calc_rot_comp (![1000, 0, 0] : Vec3R)).2 = 0 := by
    unfold calc_rot_comp degreesR
    rw [hv0, hv1, hv2, hhyp, atan2_zero_pos (by norm_num : (0:ℝ) < 1000)]
    simp
  refine ⟨?_, ?_, ?_, ?_⟩
  · unfold track_distance norm3
    rw [sub_zero, hv0, hv1, hv2,
      show (1000:ℝ) ^ 2 + 0 ^ 2 + 0 ^ 2 = 1000000 by norm_num, sqrt_million]
    norm_num
  · rw [hpan, hazi]
  · rw [htilt, hele]
  · rw [hpan, hazi]
    unfold track_mapped_pan num_to_range
    rw [show (45:ℝ) - 22.5 + (0 - 45) * (45 + 22.5 - (45 - 22.5)) / (-45 - 45) =
      45 by norm_num]
    exact pyRound2R_45

end GERF
